import Mathlib

/-!
Verification of the token/key validator of `actix-token-middleware`
(`src/data.rs`, `src/jwt.rs`, `src/result.rs`) against its natural-language
specification.

The embedding translates the Rust source into Lean:
* `Json` models the `serde_json::Value` data model (numbers restricted to
  integers, which covers every claim the validator ever inspects).
* `Error` is the error enum of `result.rs` / `jwt.rs` with payloads that the
  claims mention.
* `Jwt` is the validator of `data.rs` (`jwks` url, `keys` vector, `claims`
  vector of (name, expected) pairs); `Jwks`/`Claims` are the variant of
  `jwt.rs` (same bodies, with the constraint set held as a `BTreeMap`, whose
  iteration is its sorted entry list).
* Behaviour of the external crates (`jsonwebtoken::decode`, the serde
  deserialization of `jsonwebkey::JsonWebKey`) is not in `src/`; those
  definitions are modelled from the spec (§4.1, §4.2, §6) plus the type
  information visible at the use sites in `src/` and carry a
  `Modelled from the spec:` note.
* Wall-clock time and the signature primitive are explicit parameters
  (`now`, `sigOk`); network fetch results are passed in as values.
* The Rust panic of `key.algorithm.unwrap()` is a distinct `Outcome.panic`
  result, separate from every `Error`.
-/

set_option autoImplicit false

namespace TokenMw

/-- The `serde_json::Value` data model, with numbers restricted to the
integers (the validator only ever inspects integral numeric claims such as
`exp`/`nbf`). -/
inductive Json where
  | null
  | bool (b : Bool)
  | num (n : Int)
  | str (s : String)
  | arr (elems : List Json)
  | obj (fields : List (String × Json))

/-- Field lookup in a JSON object's field list: first binding wins
(`serde_json::Map::get`). -/
def getField : List (String × Json) → String → Option Json
  | [], _ => none
  | (k, v) :: t, key => if k = key then some v else getField t key

/-- Field access `Value::get(key)` on a JSON value: a field of an object, `none` on every
other shape. -/
def Json.get (j : Json) (key : String) : Option Json :=
  match j with
  | .obj fields => getField fields key
  | _ => none

/-- JSON string escaping used by `serde_json`'s `Display`: quote, backslash
and control characters are escaped. -/
def escapeChar (c : Char) : String :=
  if c = '"' then "\\\""
  else if c = '\\' then "\\\\"
  else if c = '\n' then "\\n"
  else if c = '\r' then "\\r"
  else if c = '\t' then "\\t"
  else if c.toNat < 32 then
    "\\u00" ++ String.mk [Nat.digitChar (c.toNat / 16), Nat.digitChar (c.toNat % 16)]
  else String.singleton c

/-- Escape every character of a string for JSON output. -/
def escapeString (s : String) : String :=
  String.join (s.data.map escapeChar)

mutual

/-- Rendering `Value::to_string()` — the compact JSON rendering produced by
`serde_json`'s `Display` implementation.  A JSON string renders WITH
surrounding quotes. -/
def Json.render : Json → String
  | .null => "null"
  | .bool true => "true"
  | .bool false => "false"
  | .num n => toString n
  | .str s => "\"" ++ escapeString s ++ "\""
  | .arr elems => "[" ++ renderElems elems ++ "]"
  | .obj fields => "\x7b" ++ renderFields fields ++ "\x7d"

/-- Comma-separated rendering of array elements. -/
def renderElems : List Json → String
  | [] => ""
  | [j] => Json.render j
  | j :: t => Json.render j ++ "," ++ renderElems t

/-- Comma-separated rendering of object fields. -/
def renderFields : List (String × Json) → String
  | [] => ""
  | [(k, v)] => "\"" ++ escapeString k ++ "\":" ++ Json.render v
  | (k, v) :: t => "\"" ++ escapeString k ++ "\":" ++ Json.render v ++ "," ++ renderFields t

end

/-- The serde_json `PartialEq<String> for Value` instance — the meaning of
`tok_val == val` in the source: a JSON string equal to the expected string;
every non-string value compares unequal to every string. -/
def Json.eqString (v : Json) (s : String) : Bool :=
  match v with
  | .str t => t == s
  | _ => false

/-! ### Key and token data (crate types as used by `src/`) -/

/-- JWT signing algorithms (`jsonwebtoken::Algorithm`). -/
inductive Algorithm where
  | HS256 | HS384 | HS512
  | RS256 | RS384 | RS512
  | ES256 | ES384
  | PS256 | PS384 | PS512
deriving DecidableEq, Repr

/-- Modelled from the spec: key material of a VerificationKey (§3, §6) —
the key-type-specific fields of a JWK (RSA modulus/exponent, EC curve and
coordinates, or a symmetric key). -/
inductive KeyMaterial where
  | rsa (n e : String)
  | ec (crv x y : String)
  | oct (k : String)
deriving DecidableEq, Repr

/-- The type `jsonwebkey::JsonWebKey` as used by `src/`: key material, an OPTIONAL
`kid` (the source guards `key_id.as_ref()`), and an OPTIONAL declared
algorithm (the source unwraps `key.algorithm`). -/
structure JsonWebKey where
  key : KeyMaterial
  key_id : Option String
  algorithm : Option Algorithm
deriving DecidableEq, Repr

/-- Decoded JWT header (`jsonwebtoken::Header`): the declared algorithm and
an optional `kid`. -/
structure Header where
  alg : Algorithm
  kid : Option String
deriving DecidableEq, Repr

/-- A compact-serialized token, abstracted at the segment level: `header` is
the parse of the first segment (`none` models a header that
`decode_header` rejects), `claims` the payload JSON, `sig` the opaque
signature segment. -/
structure Token where
  header : Option Header
  claims : Json
  sig : Nat

/-- The type `jsonwebtoken::TokenData<Value>`: decoded header plus the claims
mapping. -/
structure TokenData where
  header : Header
  claims : Json

/-- The `jsonwebtoken::errors::ErrorKind` cases reachable through this
validator. -/
inductive JwtErrorKind where
  | InvalidToken
  | InvalidSignature
  | InvalidAlgorithm
  | ExpiredSignature
  | ImmatureSignature
deriving DecidableEq, Repr

/-- The error enum of `result.rs` / `jwt.rs`, with the payloads the claims
talk about.  There is no UnsupportedAlgorithm variant in the source. -/
inductive Error where
  | GetError
  | BodyResponse
  | DecodeError
  | DeserError
  | JwtError (kind : JwtErrorKind)
  | JwtHeaderError
  | NoKid
  | KeyNotFound (kid : String)
  | ClaimNotFound (key : String)
  | Claim (key expected actual : String)
deriving DecidableEq, Repr

/-- Result of a fallible Rust call that may also panic (`unwrap`): panics
are a distinct outcome, not an `Error`. -/
inductive Outcome (α : Type) where
  | ok (value : α)
  | err (e : Error)
  | panic
deriving Repr

/-- Mapping over the success value of an `Outcome`. -/
def Outcome.map {α β : Type} (f : α → β) : Outcome α → Outcome β
  | .ok a => .ok (f a)
  | .err e => .err e
  | .panic => .panic

/-- The abstract signature primitive: does the token's signature verify
under the given key material and algorithm? -/
def SigCheck : Type := Token → KeyMaterial → Algorithm → Bool

/-! ### `jsonwebtoken` decoding, modelled from the spec -/

/-- Modelled from the spec: `jsonwebtoken::Validation` — the settings
driving `decode` (allowed algorithms, time-claim switches, leeway). -/
structure Validation where
  leeway : Int
  validate_exp : Bool
  validate_nbf : Bool
  algorithms : List Algorithm
deriving DecidableEq, Repr

/-- Modelled from the spec: `Validation::default()` — expiry validation is
ENABLED by default (§4.2 step 6 treats default-enabled expiry validation as
the intended behaviour), `nbf` checking is off, no leeway. -/
def Validation.default : Validation :=
  { leeway := 0, validate_exp := true, validate_nbf := false, algorithms := [.HS256] }

/-- The numeric time claim named `name`, when present with a numeric value. -/
def getNumClaim (claims : Json) (name : String) : Option Int :=
  match claims.get name with
  | some (.num n) => some n
  | _ => none

/-- Modelled from the spec: the `nbf` half of §4.2 step 6 — when enabled, an
`nbf` in the future beyond the leeway fails with ImmatureSignature. -/
def checkNbf (tok : Token) (h : Header) (validation : Validation) (now : Int) :
    Except JwtErrorKind TokenData :=
  if validation.validate_nbf then
    match getNumClaim tok.claims "nbf" with
    | some n =>
      if n > now + validation.leeway then .error .ImmatureSignature
      else .ok ⟨h, tok.claims⟩
    | none => .ok ⟨h, tok.claims⟩
  else .ok ⟨h, tok.claims⟩

/-- Modelled from the spec: `jsonwebtoken::decode` (§4.2 steps 1, 4, 5, 6) —
parse the header, require the header's algorithm to be among the allowed
ones, verify the signature, then validate the time claims (`exp` must not
lie before `now` minus the leeway). -/
def decode (tok : Token) (key : KeyMaterial) (validation : Validation) (now : Int)
    (sigOk : SigCheck) : Except JwtErrorKind TokenData :=
  match tok.header with
  | none => .error .InvalidToken
  | some h =>
    if h.alg ∈ validation.algorithms then
      if sigOk tok key h.alg then
        if validation.validate_exp then
          match getNumClaim tok.claims "exp" with
          | some e =>
            if e < now - validation.leeway then .error .ExpiredSignature
            else checkNbf tok h validation now
          | none => checkNbf tok h validation now
        else checkNbf tok h validation now
      else .error .InvalidSignature
    else .error .InvalidAlgorithm

/-! ### The validator itself (`src/data.rs`, `src/jwt.rs`) -/

/-- The closure `get_key` scans with:
`k.key_id.as_ref().filter(|id| *id == kid).is_some()` — true exactly when
the key carries a `kid` equal to the requested one. -/
def kidMatches (kid : String) (k : JsonWebKey) : Bool :=
  match k.key_id with
  | some id => id == kid
  | none => false

/-- Lookup `get_key` (identical in `data.rs` and `jwt.rs`):
`keys.iter().find(|k| k.key_id.as_ref().filter(|id| *id == kid).is_some())`. -/
def getKey (keys : List JsonWebKey) (kid : String) : Option JsonWebKey :=
  keys.find? (kidMatches kid)

/-- The claim-checking loop, textually identical in `Jwt::check_claims`,
`Jwt::validate_jwt`, `Claims::check` and `Jwks::validate_jwt`: for each
(name, expected) pair in iteration order, the claim must be present
(`ClaimNotFound` otherwise) and `tok_val == val` must hold (`Claim` with
`val.to_string()` and `tok_val.to_string()` otherwise); the first error is
propagated. -/
def checkClaimsList (constraints : List (String × String)) (td : TokenData) :
    Except Error Unit :=
  match constraints with
  | [] => .ok ()
  | (key, val) :: rest =>
    match td.claims.get key with
    | none => .error (.ClaimNotFound key)
    | some tokVal =>
      if tokVal.eqString val then checkClaimsList rest td
      else .error (.Claim key val tokVal.render)

/-- The shared core of `check_jwt` (identical in `data.rs` and `jwt.rs`):
decode the header, require a `kid`, look the key up, take the algorithm
from the KEY (`key.algorithm.unwrap()` — a panic when the key declares
none), and decode with `Validation { algorithms: vec![alg],
..Default::default() }`. -/
def checkJwtCore (keys : List JsonWebKey) (tok : Token) (now : Int)
    (sigOk : SigCheck) : Outcome TokenData :=
  match tok.header with
  | none => .err .JwtHeaderError
  | some header =>
    match header.kid with
    | none => .err .NoKid
    | some kid =>
      match getKey keys kid with
      | none => .err (.KeyNotFound kid)
      | some key =>
        match key.algorithm with
        | none => .panic
        | some alg =>
          match decode tok key.key { Validation.default with algorithms := [alg] } now sigOk with
          | .error e => .err (.JwtError e)
          | .ok td => .ok td

/-- The shared core of `validate_jwt` (identical in `data.rs` and
`jwt.rs`): `check_jwt` then the claim-checking loop, returning `Ok(())`. -/
def validateJwtCore (keys : List JsonWebKey) (constraints : List (String × String))
    (tok : Token) (now : Int) (sigOk : SigCheck) : Outcome Unit :=
  match checkJwtCore keys tok now sigOk with
  | .panic => .panic
  | .err e => .err e
  | .ok td =>
    match checkClaimsList constraints td with
    | .error e => .err e
    | .ok _ => .ok ()

/-- The validator state of `data.rs`: the JWKS endpoint url, the fetched
keys, and the claim constraints held as a `Vec<(String, String)>`
(iteration in stored order). -/
structure Jwt where
  jwks : String
  keys : List JsonWebKey
  claims : List (String × String)

/-- Method `Jwt::get_key` (data.rs). -/
def Jwt.get_key (self : Jwt) (kid : String) : Option JsonWebKey :=
  getKey self.keys kid

/-- Method `Jwt::check_claims` (data.rs): the claim loop over the `Vec` in stored
order. -/
def Jwt.check_claims (self : Jwt) (td : TokenData) : Except Error Unit :=
  checkClaimsList self.claims td

/-- Method `Jwt::check_jwt` (data.rs). -/
def Jwt.check_jwt (self : Jwt) (tok : Token) (now : Int) (sigOk : SigCheck) :
    Outcome TokenData :=
  checkJwtCore self.keys tok now sigOk

/-- Method `Jwt::validate_jwt` (data.rs): returns `Result<()>` — unit on success. -/
def Jwt.validate_jwt (self : Jwt) (tok : Token) (now : Int) (sigOk : SigCheck) :
    Outcome Unit :=
  validateJwtCore self.keys self.claims tok now sigOk

/-- The key-set wrapper of `jwt.rs` (also the deserialization target of the
JWKS body in both files). -/
structure Jwks where
  keys : List JsonWebKey

/-- Method `Jwks::get_key` (jwt.rs). -/
def Jwks.get_key (self : Jwks) (kid : String) : Option JsonWebKey :=
  getKey self.keys kid

/-- Method `Jwks::check_jwt` (jwt.rs). -/
def Jwks.check_jwt (self : Jwks) (tok : Token) (now : Int) (sigOk : SigCheck) :
    Outcome TokenData :=
  checkJwtCore self.keys tok now sigOk

/-- Method `Jwks::validate_jwt` (jwt.rs): the constraints arrive as a
`&BTreeMap<String, String>`, whose iteration order is its sorted entry
list — `entries` is that list. -/
def Jwks.validate_jwt (self : Jwks) (tok : Token) (entries : List (String × String))
    (now : Int) (sigOk : SigCheck) : Outcome Unit :=
  validateJwtCore self.keys entries tok now sigOk

/-- The `Claims` newtype of `jwt.rs` around a `BTreeMap<String, String>`:
`entries` is the map's iteration order, i.e. its entry list sorted by
name. -/
structure Claims where
  entries : List (String × String)

/-- Method `Claims::check` (jwt.rs): the claim loop over the sorted map entries. -/
def Claims.check (self : Claims) (td : TokenData) : Except Error Unit :=
  checkClaimsList self.entries td

/-- Method `Jwt::set_keys` (data.rs) as a state transformer: the fetch result of
`Jwks::get(&self.jwks)` is passed in; `?` returns the error BEFORE the
assignment `self.keys = keys.keys`, so on error the state is returned
untouched. -/
def Jwt.set_keys (self : Jwt) (fetched : Except Error Jwks) :
    Jwt × Except Error Unit :=
  match fetched with
  | .error e => (self, .error e)
  | .ok ks => ({ self with keys := ks.keys }, .ok ())

/-! ### JWKS body deserialization (`Jwks::get`) -/

/-- Modelled from the spec: the key-type-specific part of deserializing one
JWK entry (§6 — RSA: modulus and exponent; EC: curve and coordinates;
symmetric: the key), all base64url text fields.  `none` is a
deserialization failure. -/
def parseKeyMaterial (fields : List (String × Json)) : Option KeyMaterial :=
  match getField fields "kty" with
  | some (.str "RSA") =>
    match getField fields "n", getField fields "e" with
    | some (.str n), some (.str e) => some (.rsa n e)
    | _, _ => none
  | some (.str "EC") =>
    match getField fields "crv", getField fields "x", getField fields "y" with
    | some (.str crv), some (.str x), some (.str y) => some (.ec crv x y)
    | _, _, _ => none
  | some (.str "oct") =>
    match getField fields "k" with
    | some (.str k) => some (.oct k)
    | _ => none
  | _ => none

/-- An optional string field: absent is fine (`none` payload), present must
be a string. -/
def parseOptStringField (fields : List (String × Json)) (name : String) :
    Option (Option String) :=
  match getField fields name with
  | none => some none
  | some (.str s) => some (some s)
  | some _ => none

/-- The `alg` name of a JWK entry, when recognized. -/
def algOfString (s : String) : Option Algorithm :=
  match s with
  | "HS256" => some .HS256
  | "HS384" => some .HS384
  | "HS512" => some .HS512
  | "RS256" => some .RS256
  | "RS384" => some .RS384
  | "RS512" => some .RS512
  | "ES256" => some .ES256
  | "ES384" => some .ES384
  | "PS256" => some .PS256
  | "PS384" => some .PS384
  | "PS512" => some .PS512
  | _ => none

/-- An optional `alg` field: absent is fine, present must name a known
algorithm. -/
def parseOptAlgField (fields : List (String × Json)) : Option (Option Algorithm) :=
  match getField fields "alg" with
  | none => some none
  | some (.str s) =>
    match algOfString s with
    | some a => some (some a)
    | none => none
  | some _ => none

/-- Modelled from the spec: deserializing one `jsonwebkey::JsonWebKey`
(§4.1, §6) — the key material is required, while `kid` and `alg` are
OPTIONAL fields of the crate type (the source treats both as `Option`). -/
def parseJwk (j : Json) : Option JsonWebKey :=
  match j with
  | .obj fields =>
    match parseKeyMaterial fields, parseOptStringField fields "kid",
        parseOptAlgField fields with
    | some key, some kid, some alg => some ⟨key, kid, alg⟩
    | _, _, _ => none
  | _ => none

/-- Element-wise, all-or-nothing deserialization of the `keys` array
(serde's `Vec` deserialization). -/
def parseJwkList : List Json → Option (List JsonWebKey)
  | [] => some []
  | j :: t =>
    match parseJwk j, parseJwkList t with
    | some k, some ks => some (k :: ks)
    | _, _ => none

/-- Modelled from the spec: `serde_json::from_str::<Jwks>` on an
already-lexed body — the top level must be an object with a `keys` array of
JWK entries; any shape failure is the deserialization error
(`Error::DeserError`). -/
def parseJwks (j : Json) : Except Error Jwks :=
  match j with
  | .obj fields =>
    match getField fields "keys" with
    | some (.arr elems) =>
      match parseJwkList elems with
      | some keys => .ok ⟨keys⟩
      | none => .error .DeserError
    | _ => .error .DeserError
  | _ => .error .DeserError

/-- The body of `Jwks::get` after a successful fetch: `none` models body
text that is not valid JSON (`serde_json` fails to parse it at all), `some
j` a body that lexes to the JSON value `j`. -/
def deserJwks (body : Option Json) : Except Error Jwks :=
  match body with
  | none => .error .DeserError
  | some j => parseJwks j

/-- Outcome of the network half of `Jwks::get`: the send can fail, reading
the body can fail, the bytes can be invalid UTF-8, or a text body is
obtained. -/
inductive FetchOutcome where
  | sendFailed
  | bodyFailed
  | invalidUtf8
  | body (text : Option Json)

/-- Fetch `Jwks::get` (identical in `data.rs` and `jwt.rs`): map each failure of
the fetch pipeline to its error, then deserialize the body. -/
def jwksGet (r : FetchOutcome) : Except Error Jwks :=
  match r with
  | .sendFailed => .error .GetError
  | .bodyFailed => .error .BodyResponse
  | .invalidUtf8 => .error .DecodeError
  | .body text => deserJwks text

/-! ### Spec-side definitions used to compare code against spec wording -/

/-- Modelled from the spec: the "canonical string form" of a claim value
(§4.3) — a JSON string renders to its content, a number or boolean to its
usual textual form. -/
def canonicalStr : Json → String
  | .str s => s
  | .bool true => "true"
  | .bool false => "false"
  | .num n => toString n
  | j => j.render

/-- Modelled from the spec: `verify(token)` of §4.4 — `decode_and_verify`
followed by `check_claims`, returning the DECODED TOKEN on full success. -/
def verifySpec (keys : List JsonWebKey) (constraints : List (String × String))
    (tok : Token) (now : Int) (sigOk : SigCheck) : Outcome TokenData :=
  match checkJwtCore keys tok now sigOk with
  | .panic => .panic
  | .err e => .err e
  | .ok td =>
    match checkClaimsList constraints td with
    | .error e => .err e
    | .ok _ => .ok td

/-- Whether one claim constraint passes on a decoded token: the claim is
present and `tok_val == val` holds in the serde sense. -/
def claimPass (td : TokenData) (p : String × String) : Bool :=
  match td.claims.get p.1 with
  | some v => v.eqString p.2
  | none => false

/-- The error the claim loop produces for a failing constraint. -/
def claimErr (td : TokenData) (p : String × String) : Error :=
  match td.claims.get p.1 with
  | none => .ClaimNotFound p.1
  | some v => .Claim p.1 p.2 v.render

/-! ### Shape predicates for the expected JWKS body -/

/-- The named field is present with a string value. -/
def hasStrField (fields : List (String × Json)) (name : String) : Bool :=
  match getField fields name with
  | some (.str _) => true
  | _ => false

/-- The named field is absent, or present with a string value. -/
def optStrField (fields : List (String × Json)) (name : String) : Bool :=
  match getField fields name with
  | none => true
  | some (.str _) => true
  | _ => false

/-- The `alg` field is absent, or names a recognized algorithm. -/
def optAlgField (fields : List (String × Json)) : Bool :=
  match getField fields "alg" with
  | none => true
  | some (.str s) => (algOfString s).isSome
  | _ => false

/-- The key material is complete for the declared `kty`: RSA needs `n` and
`e`, EC needs `crv`, `x` and `y`, oct needs `k`. -/
def ktyFieldsShaped (fields : List (String × Json)) : Bool :=
  match getField fields "kty" with
  | some (.str "RSA") => hasStrField fields "n" && hasStrField fields "e"
  | some (.str "EC") =>
    hasStrField fields "crv" && hasStrField fields "x" && hasStrField fields "y"
  | some (.str "oct") => hasStrField fields "k"
  | _ => false

/-- A well-shaped JWK entry: complete key material, with `kid` and `alg`
OPTIONAL. -/
def jwkShaped (j : Json) : Bool :=
  match j with
  | .obj fields =>
    ktyFieldsShaped fields && optStrField fields "kid" && optAlgField fields
  | _ => false

/-- A well-shaped JWKS body: valid JSON whose top level is an object with a
`keys` array of well-shaped JWK entries. -/
def jwksShaped (body : Option Json) : Bool :=
  match body with
  | some (.obj fields) =>
    match getField fields "keys" with
    | some (.arr elems) => elems.all jwkShaped
    | _ => false
  | _ => false

/-! ### Concrete fixtures for witnesses and counterexamples -/

/-- A signature oracle that accepts every signature. -/
def sigAll : SigCheck := fun _ _ _ => true

/-- First key carrying identifier "a". -/
def keyA1 : JsonWebKey := ⟨.rsa "n1" "e1", some "a", some .RS256⟩

/-- Second key carrying the duplicate identifier "a". -/
def keyA2 : JsonWebKey := ⟨.rsa "n2" "e2", some "a", some .RS256⟩

/-- A key carrying identifier "b" that declares no algorithm. -/
def keyNoAlg : JsonWebKey := ⟨.rsa "n3" "e3", some "b", none⟩

/-- A key that carries no identifier at all. -/
def keyNoKid : JsonWebKey := ⟨.rsa "n4" "e4", none, some .RS256⟩

/-- A validator whose key set starts with a kid-less key and then holds two
keys sharing the identifier "a". -/
def jwtDup : Jwt := ⟨"https://jwks.example/keys", [keyNoKid, keyA1, keyA2], []⟩

/-- A token naming the kid "zz", which no fixture key set contains. -/
def tokNoKey : Token := ⟨some ⟨.RS256, some "zz"⟩, .obj [], 0⟩

/-- A validator whose only key ("b") declares no algorithm. -/
def jwtNoAlg : Jwt := ⟨"https://jwks.example/keys", [keyNoAlg], []⟩

/-- A token naming the kid "b" (matched by `keyNoAlg`). -/
def tokForB : Token := ⟨some ⟨.RS256, some "b"⟩, .obj [], 0⟩

/-- A token for kid "a" whose header declares ES256, differing from the
matched key's declared RS256. -/
def tokWrongAlg : Token := ⟨some ⟨.ES256, some "a"⟩, .obj [], 0⟩

/-- A token for kid "a" whose `exp` claim is 5 — in the past for `now` 10. -/
def tokExpired : Token := ⟨some ⟨.RS256, some "a"⟩, .obj [("exp", .num 5)], 0⟩

/-- A decoded token whose `ref_protected` claim is the JSON BOOLEAN true
(as some issuers type it), not the JSON string "true". -/
def tdBool : TokenData := ⟨⟨.RS256, some "a"⟩, .obj [("ref_protected", .bool true)]⟩

/-- A decoded token carrying the string claim "x" under "a". -/
def tdStr : TokenData := ⟨⟨.RS256, some "a"⟩, .obj [("a", .str "x")]⟩

/-- A validator holding exactly the key "a" and no claim constraints. -/
def jwtA : Jwt := ⟨"https://jwks.example/keys", [keyA1], []⟩

/-- A verifiable token for kid "a" carrying the claim `who`: "x". -/
def tokWho : Token := ⟨some ⟨.RS256, some "a"⟩, .obj [("who", .str "x")], 0⟩

/-- A verifiable token for kid "a" carrying no claims at all. -/
def tokBare : Token := ⟨some ⟨.RS256, some "a"⟩, .obj [], 0⟩

/-- A validator whose constraint vector holds "b" before "a" — NOT sorted
by name. -/
def jwtUnsorted : Jwt := ⟨"https://jwks.example/keys", [], [("b", "1"), ("a", "1")]⟩

/-- A decoded token with an empty claims object (every constraint fails on
it). -/
def tdEmpty : TokenData := ⟨⟨.RS256, some "a"⟩, .obj []⟩

/-- A JWKS body whose single RSA entry has complete key material but NO
`kid` field. -/
def bodyNoKid : Option Json :=
  some (.obj [("keys", .arr [.obj [("kty", .str "RSA"), ("n", .str "n0"), ("e", .str "e0")]])])

/-- A JWKS body whose single RSA entry carries `kid` "a" and `alg` RS256. -/
def bodyWithKid : Option Json :=
  some (.obj [("keys", .arr [.obj [("kty", .str "RSA"), ("n", .str "n1"), ("e", .str "e1"),
    ("kid", .str "a"), ("alg", .str "RS256")]])])

/-! ### Helper lemmas -/

/-- The scan predicate of `get_key` holds exactly when the key's identifier
is present and equals the requested `kid`. -/
theorem kidMatches_iff (kid : String) (k : JsonWebKey) :
    kidMatches kid k = true ↔ k.key_id = some kid := by
  cases h : k.key_id with
  | none => simp [kidMatches, h]
  | some id => simp [kidMatches, h, beq_iff_eq]

/-- Lookup finds nothing exactly when no key in the list carries the
requested identifier. -/
theorem getKey_eq_none_iff (keys : List JsonWebKey) (kid : String) :
    getKey keys kid = none ↔ ∀ k ∈ keys, k.key_id ≠ some kid := by
  rw [getKey, List.find?_eq_none]
  constructor
  · intro h k hk
    have := h k hk
    rw [kidMatches_iff] at this
    simpa using this
  · intro h k hk
    rw [kidMatches_iff]
    exact h k hk

/-- A found key is the FIRST key in list order carrying the requested
identifier: it sits at an index, its identifier equals `kid`, and every
earlier key's identifier differs. -/
theorem getKey_some_spec (keys : List JsonWebKey) (kid : String) (key : JsonWebKey)
    (h : getKey keys kid = some key) :
    key.key_id = some kid ∧
      ∃ i : Fin keys.length, keys.get i = key ∧
        ∀ j : Fin keys.length, j.val < i.val → (keys.get j).key_id ≠ some kid := by
  induction keys with
  | nil => simp [getKey] at h
  | cons hd tl ih =>
    by_cases hm : kidMatches kid hd = true
    · have hkey : key = hd := by
        rw [getKey, List.find?, hm] at h
        exact (Option.some.injEq _ _ ▸ h.symm)
      subst hkey
      refine ⟨(kidMatches_iff kid key).1 hm, ⟨0, Nat.succ_pos _⟩, rfl, ?_⟩
      intro j hj
      exact absurd hj (Nat.not_lt_zero _)
    · have htl : getKey tl kid = some key := by
        rw [getKey, List.find?] at h
        rw [Bool.not_eq_true] at hm
        rw [hm] at h
        exact h
      obtain ⟨hid, i, hi, hbefore⟩ := ih htl
      refine ⟨hid, ⟨i.val + 1, Nat.succ_lt_succ i.isLt⟩, by simpa using hi, ?_⟩
      intro j hj
      match j with
      | ⟨0, _⟩ =>
        intro hcontra
        exact hm ((kidMatches_iff kid hd).2 hcontra)
      | ⟨jv + 1, hjlt⟩ =>
        have : jv < i.val := Nat.lt_of_succ_lt_succ hj
        simpa using hbefore ⟨jv, Nat.lt_of_succ_lt_succ hjlt⟩ this

/-- The serde comparison `tok_val == val` holds exactly when the claim value
is the JSON string with the expected content. -/
theorem eqString_iff (v : Json) (s : String) :
    v.eqString s = true ↔ v = .str s := by
  cases v <;> simp [Json.eqString]

/-- One JWK entry's key material parses exactly when the kty-specific
fields are complete. -/
theorem parseKeyMaterial_isSome (fields : List (String × Json)) :
    (parseKeyMaterial fields).isSome = ktyFieldsShaped fields := by
  unfold parseKeyMaterial ktyFieldsShaped hasStrField
  split
  · -- kty "RSA": n and e must both be strings
    cases hn : getField fields "n" with
    | none => rfl
    | some v =>
      cases v with
      | str s =>
        cases he : getField fields "e" with
        | none => rfl
        | some w => cases w <;> rfl
      | null => rfl
      | bool b => rfl
      | num n => rfl
      | arr es => rfl
      | obj fs => rfl
  · -- kty "EC": crv, x and y must all be strings
    cases hc : getField fields "crv" with
    | none => rfl
    | some v =>
      cases v with
      | str s =>
        cases hx : getField fields "x" with
        | none => rfl
        | some w =>
          cases w with
          | str sx =>
            cases hy : getField fields "y" with
            | none => rfl
            | some u => cases u <;> rfl
          | null => rfl
          | bool b => rfl
          | num n => rfl
          | arr es => rfl
          | obj fs => rfl
      | null => rfl
      | bool b => rfl
      | num n => rfl
      | arr es => rfl
      | obj fs => rfl
  · -- kty "oct": k must be a string
    cases hk : getField fields "k" with
    | none => rfl
    | some v => cases v <;> rfl
  · rfl

/-- An optional string field parses exactly when it is absent or a
string. -/
theorem parseOptStringField_isSome (fields : List (String × Json)) (name : String) :
    (parseOptStringField fields name).isSome = optStrField fields name := by
  unfold parseOptStringField optStrField
  cases h : getField fields name with
  | none => rfl
  | some v => cases v <;> rfl

/-- The optional `alg` field parses exactly when absent or naming a known
algorithm. -/
theorem parseOptAlgField_isSome (fields : List (String × Json)) :
    (parseOptAlgField fields).isSome = optAlgField fields := by
  unfold parseOptAlgField optAlgField
  cases h : getField fields "alg" with
  | none => rfl
  | some v =>
    cases v with
    | str s =>
      dsimp only
      cases ha : algOfString s <;> rfl
    | null => rfl
    | bool b => rfl
    | num n => rfl
    | arr es => rfl
    | obj fs => rfl

/-- A JWK entry parses exactly when it is well shaped — in particular an
entry WITHOUT a `kid` field still parses. -/
theorem parseJwk_isSome (j : Json) :
    (parseJwk j).isSome = jwkShaped j := by
  cases j with
  | obj fields =>
    show (match parseKeyMaterial fields, parseOptStringField fields "kid",
        parseOptAlgField fields with
      | some key, some kid, some alg => some (⟨key, kid, alg⟩ : JsonWebKey)
      | _, _, _ => none).isSome
      = (ktyFieldsShaped fields && optStrField fields "kid" && optAlgField fields)
    rw [← parseKeyMaterial_isSome, ← parseOptStringField_isSome, ← parseOptAlgField_isSome]
    cases parseKeyMaterial fields <;> cases parseOptStringField fields "kid" <;>
      cases parseOptAlgField fields <;> rfl
  | null => rfl
  | bool b => rfl
  | num n => rfl
  | str s => rfl
  | arr elems => rfl

/-- The `keys` array parses exactly when every entry is well shaped. -/
theorem parseJwkList_isSome (elems : List Json) :
    (parseJwkList elems).isSome = elems.all jwkShaped := by
  induction elems with
  | nil => rfl
  | cons j t ih =>
    show (match parseJwk j, parseJwkList t with
      | some k, some ks => some (k :: ks)
      | _, _ => none).isSome = (jwkShaped j && t.all jwkShaped)
    rw [← parseJwk_isSome, ← ih]
    cases parseJwk j <;> cases parseJwkList t <;> rfl

/-- The claim loop is first-failure-wins over the ITERATION ORDER of the
constraint list: it returns `Ok(())` when every constraint passes, and
otherwise the error of the FIRST failing constraint in list order. -/
theorem checkClaimsList_eq_find (l : List (String × String)) (td : TokenData) :
    checkClaimsList l td =
      match l.find? (fun p => !claimPass td p) with
      | none => .ok ()
      | some p => .error (claimErr td p) := by
  induction l with
  | nil => rfl
  | cons hd t ih =>
    obtain ⟨k, v⟩ := hd
    by_cases hp : claimPass td (k, v) = true
    · have hfind : ((k, v) :: t).find? (fun p => !claimPass td p)
          = t.find? (fun p => !claimPass td p) := by
        simp [List.find?, hp]
      have hstep : checkClaimsList ((k, v) :: t) td = checkClaimsList t td := by
        have hp' := hp
        cases hg : td.claims.get k with
        | none => simp [claimPass, hg] at hp'
        | some tokVal =>
          simp only [claimPass, hg] at hp'
          simp only [checkClaimsList, hg]
          rw [if_pos hp']
      rw [hstep, ih, hfind]
    · rw [Bool.not_eq_true] at hp
      have hfind : ((k, v) :: t).find? (fun p => !claimPass td p) = some (k, v) := by
        simp [List.find?, hp]
      rw [hfind]
      cases hg : td.claims.get k with
      | none =>
        simp only [checkClaimsList, hg, claimErr]
      | some tokVal =>
        have hp' := hp
        simp only [claimPass, hg] at hp'
        simp only [checkClaimsList, hg, claimErr]
        rw [if_neg (by rw [hp']; exact Bool.false_ne_true)]

/-! ### Claim theorems -/

/-- C5: for every key set and kid, `get_key` returns `None` exactly when no
key carries that identifier, and a returned key is the FIRST key in list
order whose identifier equals the kid by exact string match — with a
duplicate identifier the earlier key wins. -/
theorem c5_get_key_first_match (self : Jwt) (kid : String) :
    (Jwt.get_key self kid = none ↔ ∀ k ∈ self.keys, k.key_id ≠ some kid) ∧
    (∀ key, Jwt.get_key self kid = some key →
      key.key_id = some kid ∧
        ∃ i : Fin self.keys.length, self.keys.get i = key ∧
          ∀ j : Fin self.keys.length, j.val < i.val →
            (self.keys.get j).key_id ≠ some kid) := by
  refine ⟨getKey_eq_none_iff self.keys kid, ?_⟩
  intro key h
  exact getKey_some_spec self.keys kid key h

/-- Witness for C5: on a key set holding a kid-less key and two keys with
the duplicate identifier "a", lookup returns the earlier "a" key. -/
theorem c5_get_key_first_match_witness :
    keyA1.key_id = some "a" ∧
      ∃ i : Fin jwtDup.keys.length, jwtDup.keys.get i = keyA1 ∧
        ∀ j : Fin jwtDup.keys.length, j.val < i.val →
          (jwtDup.keys.get j).key_id ≠ some "a" :=
  (c5_get_key_first_match jwtDup "a").2 keyA1 (by decide)

/-- C10: key lookup never returns a key whose identifier is absent — if
`get_key` returns `Some key` then that key's identifier is present and
equals the requested kid (so a kid-less key in the collection can never be
matched). -/
theorem c10_get_key_id_present (self : Jwt) (kid : String) (key : JsonWebKey)
    (h : Jwt.get_key self kid = some key) : key.key_id = some kid :=
  (getKey_some_spec self.keys kid key h).1

/-- Witness for C10: the key found for "a" in a set that also contains a
kid-less key indeed carries identifier "a". -/
theorem c10_get_key_id_present_witness : keyA1.key_id = some "a" :=
  c10_get_key_id_present jwtDup "a" keyA1 (by decide)

/-- C4: when the token's header parses and carries a kid absent from the
key set, `check_jwt` fails with `KeyNotFound kid` — for EVERY signature
oracle, so key lookup gates signature verification and no signature error
can arise. -/
theorem c4_unknown_kid (self : Jwt) (tok : Token) (now : Int) (sigOk : SigCheck)
    (header : Header) (kid : String)
    (hh : tok.header = some header) (hk : header.kid = some kid)
    (hnone : Jwt.get_key self kid = none) :
    Jwt.check_jwt self tok now sigOk = .err (.KeyNotFound kid) := by
  have hn : getKey self.keys kid = none := hnone
  unfold Jwt.check_jwt checkJwtCore
  rw [hh]
  dsimp only
  rw [hk]
  dsimp only
  rw [hn]

/-- Witness for C4 at a concrete token whose kid "zz" is absent. -/
theorem c4_unknown_kid_witness :
    Jwt.check_jwt jwtDup tokNoKey 0 sigAll = .err (.KeyNotFound "zz") :=
  c4_unknown_kid jwtDup tokNoKey 0 sigAll ⟨.RS256, some "zz"⟩ "zz" rfl rfl (by decide)

/-- C9: `set_keys` is atomic with respect to errors — a failed fetch leaves
the whole state (url, keys, constraints) untouched, a successful fetch
replaces exactly the key collection and leaves url and constraints
unchanged. -/
theorem c9_set_keys_atomic (self : Jwt) (fetched : Except Error Jwks) :
    (∀ e, fetched = .error e → Jwt.set_keys self fetched = (self, .error e)) ∧
    (∀ ks, fetched = .ok ks →
      Jwt.set_keys self fetched =
        ({ jwks := self.jwks, keys := ks.keys, claims := self.claims }, .ok ())) := by
  constructor
  · intro e he
    subst he
    rfl
  · intro ks hks
    subst hks
    rfl

/-- Witness for C9: a failed fetch leaves the fixture validator unchanged. -/
theorem c9_set_keys_atomic_witness :
    Jwt.set_keys jwtDup (.error .GetError) = (jwtDup, .error .GetError) :=
  (c9_set_keys_atomic jwtDup (.error .GetError)).1 .GetError rfl

/-- Counterexample for C2: on a token whose matched key declares no
algorithm, `check_jwt` PANICS (`key.algorithm.unwrap()`); it does not
return an UnsupportedAlgorithm error — the source error enum has no such
variant — nor any other error. -/
theorem c2_counterexample :
    Jwt.check_jwt jwtNoAlg tokForB 0 sigAll = .panic := rfl

/-- C2 amended: the allowed-algorithm list handed to token decoding is
exactly the singleton of the MATCHED KEY's declared algorithm, so a token
header naming any other algorithm is rejected with `InvalidAlgorithm`; and
when the matched key declares no algorithm the call panics (unwrap on
`None`) instead of returning an error. -/
theorem c2_alg_from_key (self : Jwt) (tok : Token) (now : Int) (sigOk : SigCheck)
    (header : Header) (kid : String) (key : JsonWebKey)
    (hh : tok.header = some header) (hk : header.kid = some kid)
    (hkey : Jwt.get_key self kid = some key) :
    (key.algorithm = none → Jwt.check_jwt self tok now sigOk = .panic) ∧
    (∀ a, key.algorithm = some a →
      Jwt.check_jwt self tok now sigOk =
        (match decode tok key.key { Validation.default with algorithms := [a] } now sigOk with
         | .error e => .err (.JwtError e)
         | .ok td => .ok td) ∧
      (header.alg ≠ a →
        Jwt.check_jwt self tok now sigOk = .err (.JwtError .InvalidAlgorithm))) := by
  have hg : getKey self.keys kid = some key := hkey
  constructor
  · intro halg
    unfold Jwt.check_jwt checkJwtCore
    rw [hh]
    dsimp only
    rw [hk]
    dsimp only
    rw [hg]
    dsimp only
    rw [halg]
  · intro a halg
    have hstep : Jwt.check_jwt self tok now sigOk =
        (match decode tok key.key { Validation.default with algorithms := [a] } now sigOk with
         | .error e => .err (.JwtError e)
         | .ok td => .ok td) := by
      unfold Jwt.check_jwt checkJwtCore
      rw [hh]
      dsimp only
      rw [hk]
      dsimp only
      rw [hg]
      dsimp only
      rw [halg]
    refine ⟨hstep, ?_⟩
    intro hne
    rw [hstep]
    unfold decode
    rw [hh]
    dsimp only
    have hmem : (header.alg ∈ [a]) = False := by
      simp [hne]
    rw [if_neg (by simp [hne])]

/-- Witness for C2: a token header declaring ES256 for a key whose declared
algorithm is RS256 is rejected with InvalidAlgorithm even though the
signature oracle accepts everything. -/
theorem c2_alg_from_key_witness :
    Jwt.check_jwt jwtDup tokWrongAlg 0 sigAll = .err (.JwtError .InvalidAlgorithm) :=
  ((c2_alg_from_key jwtDup tokWrongAlg 0 sigAll ⟨.ES256, some "a"⟩ "a" keyA1
    rfl rfl (by decide)).2 .RS256 rfl).2 (by decide)

/-- C8: a token whose `exp` claim lies in the past fails with
`JwtError ExpiredSignature` even when the signature verifies and the header
names the key's algorithm — and `validate_jwt` fails the same way before
any claim constraint is consulted, because the default validation settings
keep expiry checking enabled. -/
theorem c8_expired (self : Jwt) (tok : Token) (now : Int) (sigOk : SigCheck)
    (header : Header) (kid : String) (key : JsonWebKey) (a : Algorithm) (e : Int)
    (hh : tok.header = some header) (hk : header.kid = some kid)
    (hkey : Jwt.get_key self kid = some key)
    (halg : key.algorithm = some a) (hha : header.alg = a)
    (hsig : sigOk tok key.key a = true)
    (hexp : getNumClaim tok.claims "exp" = some e) (hlt : e < now) :
    Jwt.check_jwt self tok now sigOk = .err (.JwtError .ExpiredSignature) ∧
    Jwt.validate_jwt self tok now sigOk = .err (.JwtError .ExpiredSignature) := by
  have hg : getKey self.keys kid = some key := hkey
  have hdec : decode tok key.key { Validation.default with algorithms := [a] } now sigOk
      = .error .ExpiredSignature := by
    simp [decode, hh, hha, hsig, hexp, Validation.default, hlt]
  have hchk : Jwt.check_jwt self tok now sigOk = .err (.JwtError .ExpiredSignature) := by
    unfold Jwt.check_jwt checkJwtCore
    rw [hh]
    dsimp only
    rw [hk]
    dsimp only
    rw [hg]
    dsimp only
    rw [halg]
    dsimp only
    rw [hdec]
  refine ⟨hchk, ?_⟩
  unfold Jwt.validate_jwt validateJwtCore
  have hcore : checkJwtCore self.keys tok now sigOk = .err (.JwtError .ExpiredSignature) := hchk
  rw [hcore]

/-- Witness for C8 at a concrete expired token (`exp` 5, `now` 10) with an
all-accepting signature oracle. -/
theorem c8_expired_witness :
    Jwt.check_jwt jwtDup tokExpired 10 sigAll = .err (.JwtError .ExpiredSignature) ∧
    Jwt.validate_jwt jwtDup tokExpired 10 sigAll = .err (.JwtError .ExpiredSignature) :=
  c8_expired jwtDup tokExpired 10 sigAll ⟨.RS256, some "a"⟩ "a" keyA1 .RS256 5
    rfl rfl (by decide) rfl rfl rfl rfl (by decide)

/-- Counterexample for C1: the canonical string form of the JSON boolean
claim `true` is "true" and so EQUALS the expected value, yet the check
fails with a claim-mismatch error — the code compares the JSON value to
the string via serde's `Value == String`, under which no non-string value
ever matches. -/
theorem c1_counterexample :
    canonicalStr (.bool true) = "true" ∧
    checkClaimsList [("ref_protected", "true")] tdBool =
      .error (.Claim "ref_protected" "true" "true") := ⟨rfl, rfl⟩

/-- C1 amended: for a claim present in the token, the constraint passes
exactly when the claim value is the JSON STRING whose content equals the
expected value (numbers and booleans never match); otherwise the check
fails with a claim-mismatch error whose actual value is the JSON rendering
of the claim value (for a string, with surrounding quotes). -/
theorem c1_claim_compare (key val : String) (td : TokenData) (v : Json)
    (hget : td.claims.get key = some v) :
    (checkClaimsList [(key, val)] td = .ok () ↔ v = .str val) ∧
    (v ≠ .str val →
      checkClaimsList [(key, val)] td = .error (.Claim key val v.render)) := by
  have hstep : checkClaimsList [(key, val)] td =
      if v.eqString val then .ok () else .error (.Claim key val v.render) := by
    simp only [checkClaimsList, hget]
  rw [hstep]
  constructor
  · constructor
    · intro hok
      by_cases h : v.eqString val = true
      · exact (eqString_iff v val).1 h
      · rw [if_neg h] at hok
        cases hok
    · intro hv
      rw [if_pos ((eqString_iff v val).2 hv)]
  · intro hne
    have h : ¬ v.eqString val = true := fun hc => hne ((eqString_iff v val).1 hc)
    rw [if_neg h]

/-- Witness for C1 at the string claim "x", which matches its constraint. -/
theorem c1_claim_compare_witness :
    (checkClaimsList [("a", "x")] tdStr = .ok () ↔ Json.str "x" = .str "x") ∧
    (Json.str "x" ≠ .str "x" →
      checkClaimsList [("a", "x")] tdStr = .error (.Claim "a" "x" (Json.str "x").render)) :=
  c1_claim_compare "a" "x" tdStr (.str "x") rfl

/-- Counterexample for C3: two tokens that both fully verify but decode to
DIFFERENT claims maps get the IDENTICAL result `Ok(())` from
`validate_jwt` — the decoded token (whose claims the spec-side `verify`
does return, and which distinguishes the two tokens) is not returned to
the caller. -/
theorem c3_counterexample :
    Jwt.validate_jwt jwtA tokWho 0 sigAll = .ok () ∧
    Jwt.validate_jwt jwtA tokBare 0 sigAll = .ok () ∧
    verifySpec jwtA.keys jwtA.claims tokWho 0 sigAll =
      .ok ⟨⟨.RS256, some "a"⟩, .obj [("who", .str "x")]⟩ ∧
    verifySpec jwtA.keys jwtA.claims tokBare 0 sigAll =
      .ok ⟨⟨.RS256, some "a"⟩, .obj []⟩ ∧
    (Json.obj [("who", .str "x")]).get "who" = some (.str "x") ∧
    (Json.obj []).get "who" = none :=
  ⟨rfl, rfl, rfl, rfl, rfl, rfl⟩

/-- C3 amended: `validate_jwt` is exactly the spec composition
(decode-and-verify against the held key set, then claim checking against
the held constraints) with the successful decoded token DISCARDED: it
returns unit, not the decoded token. -/
theorem c3_validate_eq_verify_discard (self : Jwt) (tok : Token) (now : Int)
    (sigOk : SigCheck) :
    Jwt.validate_jwt self tok now sigOk =
      Outcome.map (fun _ => ()) (verifySpec self.keys self.claims tok now sigOk) := by
  unfold Jwt.validate_jwt validateJwtCore verifySpec
  cases hcore : checkJwtCore self.keys tok now sigOk with
  | panic => rfl
  | err e => rfl
  | ok td =>
    dsimp only
    cases checkClaimsList self.claims td with
    | error e => rfl
    | ok u => rfl

/-- Counterexample for C6: on constraints stored as ["b" before "a"], both
failing, the reported error names "b" — the first failing constraint in
the STORED vector order — not "a", which would be first in an order sorted
by constraint name. -/
theorem c6_counterexample :
    Jwt.check_claims jwtUnsorted tdEmpty = .error (.ClaimNotFound "b") ∧
    claimPass tdEmpty ("a", "1") = false ∧
    claimPass tdEmpty ("b", "1") = false ∧
    Error.ClaimNotFound "b" ≠ .ClaimNotFound "a" :=
  ⟨rfl, rfl, rfl, by decide⟩

/-- C6 amended: claim checking succeeds exactly when every constraint
passes (the empty set trivially succeeds), and on failure reports the
first failing constraint in the ITERATION ORDER of the underlying
collection — the sorted entry list for the BTreeMap-backed `Claims::check`,
but the stored vector order (not necessarily sorted by name) for the
Vec-backed `Jwt::check_claims`; both run the same loop over their entry
list. -/
theorem c6_check_claims_conj_first_fail (url : String) (keys : List JsonWebKey)
    (l : List (String × String)) (td : TokenData) :
    (Jwt.check_claims ⟨url, keys, l⟩ td =
      match l.find? (fun p => !claimPass td p) with
      | none => .ok ()
      | some p => .error (claimErr td p)) ∧
    (Jwt.check_claims ⟨url, keys, l⟩ td = .ok () ↔ ∀ p ∈ l, claimPass td p = true) ∧
    Claims.check ⟨l⟩ td = Jwt.check_claims ⟨url, keys, l⟩ td := by
  have hmain : Jwt.check_claims ⟨url, keys, l⟩ td =
      match l.find? (fun p => !claimPass td p) with
      | none => .ok ()
      | some p => .error (claimErr td p) := checkClaimsList_eq_find l td
  refine ⟨hmain, ?_, rfl⟩
  rw [hmain]
  constructor
  · intro hok
    intro p hp
    cases hf : l.find? (fun p => !claimPass td p) with
    | none =>
      have := List.find?_eq_none.1 hf p hp
      simpa using this
    | some q =>
      rw [hf] at hok
      cases hok
  · intro hall
    have hf : l.find? (fun p => !claimPass td p) = none :=
      List.find?_eq_none.2 (fun p hp => by simp [hall p hp])
    rw [hf]

/-- Witness for C6 at the unsorted fixture: the characterization evaluates
on both sides to the "b"-first error. -/
theorem c6_check_claims_conj_first_fail_witness :
    Jwt.check_claims jwtUnsorted tdEmpty =
      match [("b", "1"), ("a", "1")].find? (fun p => !claimPass tdEmpty p) with
      | none => .ok ()
      | some p => .error (claimErr tdEmpty p) :=
  (c6_check_claims_conj_first_fail "https://jwks.example/keys" []
    [("b", "1"), ("a", "1")] tdEmpty).1

/-- Counterexample for C7: a JWKS body whose single entry has complete RSA
key material but NO `kid` field deserializes SUCCESSFULLY (the kid-less
key is retained with `key_id = none`) — the claim would have this body
fail with the key-set-parse error. -/
theorem c7_counterexample :
    getField [("kty", Json.str "RSA"), ("n", .str "n0"), ("e", .str "e0")] "kid" = none ∧
    deserJwks bodyNoKid = .ok ⟨[⟨.rsa "n0" "e0", none, none⟩]⟩ := ⟨rfl, rfl⟩

/-- C7 amended: key-set construction from a fetched body fails — always
with the deserialization error — exactly when the body is not valid JSON
or does not match the expected JWKS shape: a missing or ill-typed
top-level `keys` field, or an entry with missing or ill-typed REQUIRED JWK
fields (the kty-specific key material); the `kid` identifier and `alg` are
optional, so an entry without them still parses. -/
theorem c7_keyset_parse_error (body : Option Json) :
    ((∃ ks, deserJwks body = .ok ks) ↔ jwksShaped body = true) ∧
    (deserJwks body = .error Error.DeserError ↔ jwksShaped body = false) ∧
    (∀ e, deserJwks body = .error e → e = .DeserError) := by
  have hmain : ((∃ ks, deserJwks body = .ok ks) ↔ jwksShaped body = true) ∧
      (deserJwks body = .error Error.DeserError ↔ jwksShaped body = false) := by
    cases body with
    | none => simp [deserJwks, jwksShaped]
    | some j =>
      cases j with
      | obj fields =>
        simp only [deserJwks, parseJwks, jwksShaped]
        cases hk : getField fields "keys" with
        | none => simp
        | some v =>
          cases v with
          | arr elems =>
            dsimp only
            have hall := parseJwkList_isSome elems
            cases hp : parseJwkList elems with
            | none =>
              rw [hp] at hall
              simp [← hall]
            | some keys =>
              rw [hp] at hall
              simp [← hall]
          | null => simp
          | bool b => simp
          | num n => simp
          | str s => simp
          | obj fs => simp
      | null => simp [deserJwks, parseJwks, jwksShaped]
      | bool b => simp [deserJwks, parseJwks, jwksShaped]
      | num n => simp [deserJwks, parseJwks, jwksShaped]
      | str s => simp [deserJwks, parseJwks, jwksShaped]
      | arr es => simp [deserJwks, parseJwks, jwksShaped]
  refine ⟨hmain.1, hmain.2, ?_⟩
  intro e he
  cases hs : jwksShaped body with
  | true =>
    obtain ⟨ks, hok⟩ := hmain.1.2 hs
    rw [he] at hok
    cases hok
  | false =>
    have herr := hmain.2.2 hs
    rw [he] at herr
    injection herr

/-- Witness for C7: the body whose entry carries kid and alg deserializes
successfully. -/
theorem c7_keyset_parse_error_witness :
    ∃ ks, deserJwks bodyWithKid = .ok ks :=
  (c7_keyset_parse_error bodyWithKid).1.2 (by decide)

end TokenMw
